import Mathlib

/-!
Verification of `src/DejaView/DejaView/create_model.py` (DejaViewGPU).

The script is four library calls in a straight line: construct a pretrained
MobileNetV2, put it into evaluation mode, build a random dummy input of shape
(1, 3, 224, 224), and call `torch.onnx.export` with fixed names, a dynamic-axis
map and opset version 11.

We embed the script as an abstract syntax tree (one constructor per Python
construct that occurs, plus `tryExcept` and `pyDel` so that absence-of-handler
and never-deleted claims are not vacuous), write extraction functions over the
AST, a small interpreter for the error-propagation behaviour, and prove the
spec's claims about the extracted values.  Behaviour of the external library
`torch.onnx.export` itself (filesystem effect, determinism of the artifact) is
not in this repository; those parts are modelled from the spec and marked so.
-/

namespace DejaView

/-- Python expressions occurring in the script.  Argument lists, dictionary
entries and list elements are encoded with `econs`/`enil` chains so that all
recursion is structural.  A keyword argument `name=value` is `kw name value`;
a dictionary entry `k: v` is `pair k v`. -/
inductive Expr where
  | evar : String → Expr
  | strLit : String → Expr
  | intLit : Int → Expr
  | boolLit : Bool → Expr
  | enil : Expr
  | econs : Expr → Expr → Expr
  | pair : Expr → Expr → Expr
  | dictLit : Expr → Expr
  | listLit : Expr → Expr
  | kw : String → Expr → Expr
  | call : String → Expr → Expr
deriving DecidableEq, Repr

/-- Python statements occurring in the script, plus the forms whose absence
the spec asserts (`tryExcept` handlers, `pyDel`). -/
inductive Stmt where
  | pyImport : String → Option String → Stmt
  | assign : String → Expr → Stmt
  | exprStmt : Expr → Stmt
  | tryExcept : Stmt → Stmt → Stmt
  | pyDel : String → Stmt
deriving DecidableEq, Repr

/-- Build an `econs` chain from a Lean list of expressions. -/
def elist : List Expr → Expr
  | [] => Expr.enil
  | e :: es => Expr.econs e (elist es)

/-- The script `create_model.py`, statement by statement, in source order. -/
def create_model_script : List Stmt :=
  [ Stmt.pyImport "torch" none
  , Stmt.pyImport "torchvision.models" (some "models")
  , Stmt.assign "model"
      (Expr.call "models.mobilenet_v2"
        (elist [Expr.kw "pretrained" (Expr.boolLit true)]))
  , Stmt.exprStmt (Expr.call "model.eval" Expr.enil)
  , Stmt.assign "dynamic_axes"
      (Expr.dictLit (elist
        [ Expr.pair (Expr.strLit "input")
            (Expr.dictLit (elist
              [ Expr.pair (Expr.intLit 0) (Expr.strLit "batch_size")
              , Expr.pair (Expr.intLit 2) (Expr.strLit "height")
              , Expr.pair (Expr.intLit 3) (Expr.strLit "width") ]))
        , Expr.pair (Expr.strLit "output")
            (Expr.dictLit (elist
              [ Expr.pair (Expr.intLit 0) (Expr.strLit "batch_size") ])) ]))
  , Stmt.assign "dummy_input"
      (Expr.call "torch.randn"
        (elist [Expr.intLit 1, Expr.intLit 3, Expr.intLit 224, Expr.intLit 224]))
  , Stmt.exprStmt (Expr.call "torch.onnx.export"
      (elist
        [ Expr.evar "model"
        , Expr.evar "dummy_input"
        , Expr.strLit "Static\\mobilenetv2_dynamic.onnx"
        , Expr.kw "input_names" (Expr.listLit (elist [Expr.strLit "input"]))
        , Expr.kw "output_names" (Expr.listLit (elist [Expr.strLit "output"]))
        , Expr.kw "dynamic_axes" (Expr.evar "dynamic_axes")
        , Expr.kw "opset_version" (Expr.intLit 11) ]))
  ]

/-! ## Extraction functions over the AST -/

/-- Does the expression mention the variable `x`? -/
def Expr.mentions (x : String) : Expr → Bool
  | Expr.evar n => n = x
  | Expr.econs h t => h.mentions x || t.mentions x
  | Expr.pair a b => a.mentions x || b.mentions x
  | Expr.dictLit e => e.mentions x
  | Expr.listLit e => e.mentions x
  | Expr.kw _ v => v.mentions x
  | Expr.call _ a => a.mentions x
  | _ => false

/-- Does the statement mention the variable `x` (in an expression position;
the target of an assignment is a binding occurrence, not a mention)? -/
def Stmt.mentions (x : String) : Stmt → Bool
  | Stmt.assign _ e => e.mentions x
  | Stmt.exprStmt e => e.mentions x
  | Stmt.tryExcept b h => b.mentions x || h.mentions x
  | _ => false

/-- Number of `try`/`except` handlers in a statement. -/
def Stmt.handlerCount : Stmt → Nat
  | Stmt.tryExcept b h => 1 + b.handlerCount + h.handlerCount
  | _ => 0

/-- Total number of `try`/`except` handlers in a statement list. -/
def handlerTotal (s : List Stmt) : Nat :=
  (s.map Stmt.handlerCount).sum

/-- All argument chains of calls to `fn` anywhere inside an expression. -/
def Expr.callArgsTo (fn : String) : Expr → List Expr
  | Expr.call f a =>
      (if f = fn then [a] else []) ++ a.callArgsTo fn
  | Expr.econs h t => h.callArgsTo fn ++ t.callArgsTo fn
  | Expr.pair a b => a.callArgsTo fn ++ b.callArgsTo fn
  | Expr.dictLit e => e.callArgsTo fn
  | Expr.listLit e => e.callArgsTo fn
  | Expr.kw _ v => v.callArgsTo fn
  | _ => []

/-- All argument chains of calls to `fn` anywhere inside a statement. -/
def Stmt.callArgsTo (fn : String) : Stmt → List Expr
  | Stmt.assign _ e => e.callArgsTo fn
  | Stmt.exprStmt e => e.callArgsTo fn
  | Stmt.tryExcept b h => b.callArgsTo fn ++ h.callArgsTo fn
  | _ => []

/-- All argument chains of calls to `fn` in a statement list, in order. -/
def scriptCallArgsTo (s : List Stmt) (fn : String) : List Expr :=
  (s.map (Stmt.callArgsTo fn)).flatten

/-- The expression assigned to `x` by the first assignment to `x`. -/
def assignedExpr : List Stmt → String → Option Expr
  | [], _ => none
  | Stmt.assign y e :: rest, x =>
      if y = x then some e else assignedExpr rest x
  | _ :: rest, x => assignedExpr rest x

/-- Value of the keyword argument `x` in an argument chain. -/
def kwLookup (x : String) : Expr → Option Expr
  | Expr.econs (Expr.kw n v) t => if n = x then some v else kwLookup x t
  | Expr.econs _ t => kwLookup x t
  | _ => none

/-- The positional (non-keyword) arguments of an argument chain. -/
def positional : Expr → List Expr
  | Expr.econs (Expr.kw _ _) t => positional t
  | Expr.econs h t => h :: positional t
  | _ => []

/-- Interpret an expression as a list literal of strings. -/
def Expr.asStringList : Expr → Option (List String)
  | Expr.listLit es => go es
  | _ => none
where
  go : Expr → Option (List String)
    | Expr.enil => some []
    | Expr.econs (Expr.strLit s) t => (go t).map (fun r => s :: r)
    | _ => none

/-- Interpret an expression as an integer literal. -/
def Expr.asInt : Expr → Option Int
  | Expr.intLit n => some n
  | _ => none

/-- Interpret an expression as a natural-number literal. -/
def Expr.asNat : Expr → Option Nat
  | Expr.intLit n => if n < 0 then none else some n.toNat
  | _ => none

/-- Interpret an expression as a string literal. -/
def Expr.asString : Expr → Option String
  | Expr.strLit s => some s
  | _ => none

/-- Interpret a dictionary literal whose keys are integer axes and whose
values are symbolic axis names, as in one entry of `dynamic_axes`. -/
def Expr.asAxisDict : Expr → Option (List (Nat × String))
  | Expr.dictLit es => go es
  | _ => none
where
  go : Expr → Option (List (Nat × String))
    | Expr.enil => some []
    | Expr.econs (Expr.pair (Expr.intLit n) (Expr.strLit s)) t =>
        if n < 0 then none else (go t).map (fun r => (n.toNat, s) :: r)
    | _ => none

/-- Interpret a dictionary literal mapping tensor names to axis dictionaries,
as in the whole `dynamic_axes` value. -/
def Expr.asAxisMap : Expr → Option (List (String × List (Nat × String)))
  | Expr.dictLit es => go es
  | _ => none
where
  go : Expr → Option (List (String × List (Nat × String)))
    | Expr.enil => some []
    | Expr.econs (Expr.pair (Expr.strLit s) d) t =>
        match d.asAxisDict, go t with
        | some ad, some r => some ((s, ad) :: r)
        | _, _ => none
    | _ => none

/-! ## Derived values of the script -/

/-- The argument chains of all `torch.onnx.export` calls in the script. -/
def exportCalls : List Expr :=
  scriptCallArgsTo create_model_script "torch.onnx.export"

/-- The argument chain of the first (and, as proved below, only) export call. -/
def exportArgs : Option Expr := exportCalls.head?

/-- A keyword argument of the export call, with a variable reference resolved
against the script's assignments (the export call passes `dynamic_axes` by
name). -/
def exportKw (x : String) : Option Expr :=
  match exportArgs.bind (kwLookup x) with
  | some (Expr.evar v) => assignedExpr create_model_script v
  | some e => some e
  | none => none

/-- The `input_names` passed to the export call. -/
def exportInputNames : Option (List String) :=
  (exportKw "input_names").bind Expr.asStringList

/-- The `output_names` passed to the export call. -/
def exportOutputNames : Option (List String) :=
  (exportKw "output_names").bind Expr.asStringList

/-- The `opset_version` passed to the export call. -/
def exportOpsetVersion : Option Int :=
  (exportKw "opset_version").bind Expr.asInt

/-- The `dynamic_axes` map passed to the export call, as a semantic value. -/
def exportDynamicAxes : Option (List (String × List (Nat × String))) :=
  (exportKw "dynamic_axes").bind Expr.asAxisMap

/-- The target path passed to the export call (third positional argument). -/
def exportPath : Option String :=
  (exportArgs.map positional).bind (fun ps => (ps.get? 2).bind Expr.asString)

/-- The tensor names that appear as keys of the dynamic-axis map. -/
def dynAxesTensorNames : List String :=
  (exportDynamicAxes.getD []).map Prod.fst

/-- The axis indices the dynamic-axis map marks dynamic for tensor `t`. -/
def dynAxesOf (t : String) : List Nat :=
  match (exportDynamicAxes.getD []).lookup t with
  | some ad => ad.map Prod.fst
  | none => []

/-- The symbolic name the dynamic-axis map gives to axis `i` of tensor `t`. -/
def dynAxisName (t : String) (i : Nat) : Option String :=
  ((exportDynamicAxes.getD []).lookup t).bind (fun ad => ad.lookup i)

/-- The shape of the dummy input: the arguments of the `torch.randn` call
assigned to `dummy_input`. -/
def dummyInputShape : Option (List Nat) :=
  match assignedExpr create_model_script "dummy_input" with
  | some (Expr.call "torch.randn" a) => (positional a).mapM Expr.asNat
  | _ => none

/-- Whether `dummy_input` is built by `torch.randn` (randomly initialized). -/
def dummyInputIsRandn : Bool :=
  match assignedExpr create_model_script "dummy_input" with
  | some (Expr.call "torch.randn" _) => true
  | _ => false

/-- Indices of the statements satisfying a predicate, in source order. -/
def stmtIndicesWhere (s : List Stmt) (p : Stmt → Bool) : List Nat :=
  (List.range s.length).filter (fun i =>
    match s.get? i with
    | some st => p st
    | none => false)

/-- Indices of the statements that mention variable `x`. -/
def stmtsMentioning (s : List Stmt) (x : String) : List Nat :=
  stmtIndicesWhere s (Stmt.mentions x)

/-- The rank of the dummy input. -/
def inputRank : Nat := (dummyInputShape.getD []).length

/-- The axes of the `input` tensor not present in the dynamic-axis map. -/
def fixedInputAxes : List Nat :=
  (List.range inputRank).filter (fun i => !((dynAxesOf "input").contains i))

/-- Modelled from the spec: "any axis not marked dynamic is baked into the
exported graph as a literal constant equal to the dummy input's corresponding
dimension" (the baking is done by `torch.onnx.export`, library code outside
this repository).  Each fixed axis is paired with the baked constant. -/
def bakedInputDims : List (Nat × Nat) :=
  fixedInputAxes.map (fun i => (i, (dummyInputShape.getD []).getD i 0))

/-- Is the statement, at top level, a call of function `fn`? -/
def Stmt.isCallStmtTo (fn : String) : Stmt → Bool
  | Stmt.exprStmt (Expr.call f _) => f = fn
  | _ => false

/-- Is the statement the construction of the model: an assignment to `model`
of a call to `models.mobilenet_v2` with `pretrained=True`? -/
def Stmt.isModelConstruction : Stmt → Bool
  | Stmt.assign "model" (Expr.call "models.mobilenet_v2" a) =>
      kwLookup "pretrained" a == some (Expr.boolLit true)
  | _ => false

/-- Does the statement mutate the object bound to `model`: a top-level call of
one of its methods (such as `model.eval()`)? -/
def Stmt.mutatesModel : Stmt → Bool
  | Stmt.exprStmt (Expr.call f _) => List.isPrefixOf "model.".data f.data
  | _ => false

/-- Does the statement rebind the variable `x`? -/
def Stmt.assignsTo (x : String) : Stmt → Bool
  | Stmt.assign y _ => y = x
  | _ => false

/-- Does the statement delete the variable `x`? -/
def Stmt.deletesVar (x : String) : Stmt → Bool
  | Stmt.pyDel y => y = x
  | _ => false

/-! ## Execution model

The two statements of the script that can fail are the model construction
(`models.mobilenet_v2(pretrained=True)`, which fetches pretrained weights) and
the export call (`torch.onnx.export`, which covers invalid output directory
and unsupported shape or opset during tracing).  Their outcomes are supplied
by an environment; every other expression evaluates without failure.  The
interpreter implements Python's semantics for straight-line code: an exception
raised by a call propagates outward unless a `try`/`except` handler is in
scope. -/

/-- Outcomes of the two fallible library calls, supplied by the environment. -/
structure Env where
  loadResult : Except String Unit
  exportResult : Except String Unit

/-- The failure behaviour of a call to `fn` under environment `env`. -/
def effectOf (env : Env) (fn : String) : Except String Unit :=
  if fn = "models.mobilenet_v2" then env.loadResult
  else if fn = "torch.onnx.export" then env.exportResult
  else Except.ok ()

/-- Run an expression: evaluate subexpressions left to right, then the call
itself; the first exception propagates. -/
def Expr.run (env : Env) : Expr → Except String Unit
  | Expr.call f a =>
      match a.run env with
      | Except.error e => Except.error e
      | Except.ok _ => effectOf env f
  | Expr.econs h t =>
      match h.run env with
      | Except.error e => Except.error e
      | Except.ok _ => t.run env
  | Expr.pair a b =>
      match a.run env with
      | Except.error e => Except.error e
      | Except.ok _ => b.run env
  | Expr.dictLit e => e.run env
  | Expr.listLit e => e.run env
  | Expr.kw _ v => v.run env
  | _ => Except.ok ()

/-- Run a statement.  A `try`/`except` statement is the only construct that
stops an exception from propagating. -/
def Stmt.run (env : Env) : Stmt → Except String Unit
  | Stmt.assign _ e => e.run env
  | Stmt.exprStmt e => e.run env
  | Stmt.tryExcept b h =>
      match b.run env with
      | Except.error _ => h.run env
      | Except.ok u => Except.ok u
  | _ => Except.ok ()

/-- Run a statement list in order; the first uncaught exception aborts the
rest and propagates to the process boundary. -/
def runStmts (env : Env) : List Stmt → Except String Unit
  | [] => Except.ok ()
  | st :: rest =>
      match st.run env with
      | Except.error e => Except.error e
      | Except.ok _ => runStmts env rest

/-- The process exit code: zero when the script ran to completion, nonzero
when an uncaught exception reached the process boundary. -/
def exitCode (env : Env) : Nat :=
  match runStmts env create_model_script with
  | Except.ok _ => 0
  | Except.error _ => 1

/-! ## Filesystem effect of the export call

`torch.onnx.export` is external library code, not part of this repository;
its filesystem behaviour is modelled from the spec. -/

/-- A filesystem: a set of existing directories and a list of files, each a
path (as components) with its content. -/
structure FS where
  dirs : List (List String)
  files : List (List String × List Nat)
deriving DecidableEq, Repr

/-- The directory a path's file would live in: all components but the last. -/
def parentDir (path : List String) : List String := path.dropLast

/-- Modelled from the spec: the filesystem effect of `torch.onnx.export`
(library code outside this repository).  "If the target output directory does
not exist, the export call fails before any partial file is left on disk";
on success it "writes exactly one file; no other persisted state". -/
def onnxExportFS (fs : FS) (path : List String) (content : List Nat) :
    Except String FS :=
  if parentDir path ∈ fs.dirs then
    Except.ok { fs with files := (path, content) :: fs.files }
  else
    Except.error "output directory does not exist"

/-! ## Determinism of the exported artifact

The artifact's content is likewise produced by library code outside this
repository; it is modelled from the spec. -/

/-- A tensor: a shape together with the values it holds. -/
structure Tensor where
  shape : List Nat
  values : List Int
deriving DecidableEq, Repr

/-- The constant parameters the script passes to the exporter. -/
structure ExportParams where
  input_names : List String
  output_names : List String
  dynamic_axes : List (String × List (Nat × String))
  opset_version : Nat
deriving DecidableEq, Repr

/-- The serialized artifact: graph structure (operator list, tensor names,
declared dynamic axes, opset) and weights. -/
structure Artifact where
  graphOps : List String
  tensorNames : List String
  dynAxes : List (String × List (Nat × String))
  opset : Nat
  weights : List Int
deriving DecidableEq, Repr

/-- Modelled from the spec: tracing "runs a model once on example input and
records every operation performed"; the recorded operator list is determined
by the architecture and the example input's shape, not its values. -/
def traceOps (arch : String) (shape : List Nat) : List String :=
  arch :: shape.map (fun d => String.append "dim" (toString d))

/-- Modelled from the spec: the artifact produced by `torch.onnx.export`
(library code outside this repository).  Graph structure comes from tracing
the architecture on the dummy input and from the export parameters; "weight
values ... come from the same pretrained source, not from the random dummy
input". -/
def exportArtifact (arch : String) (pretrainedWeights : List Int)
    (dummy : Tensor) (p : ExportParams) : Artifact :=
  { graphOps := traceOps arch dummy.shape
  , tensorNames := p.input_names ++ p.output_names
  , dynAxes := p.dynamic_axes
  , opset := p.opset_version
  , weights := pretrainedWeights }

/-- Byte serialization of an artifact (any injective rendering will do; we
use the derived rendering). -/
def serializeArtifact (a : Artifact) : String :=
  toString (repr a)

/-! ## Path handling

The path constant is handed to the operating system unchanged; splitting on
the platform's separators is how the OS reads it. -/

/-- Split a character list at the characters satisfying `isSep`. -/
def splitCharList (isSep : Char → Bool) : List Char → List (List Char)
  | [] => [[]]
  | c :: cs =>
      match splitCharList isSep cs with
      | [] => if isSep c then [[], []] else [[c]]
      | h :: t => if isSep c then [] :: h :: t else (c :: h) :: t

/-- Does the string contain the character `c`? -/
def containsChar (s : String) (c : Char) : Bool := s.data.contains c

/-- The components of a path on a POSIX system, where only a forward slash
separates. -/
def posixComponents (s : String) : List String :=
  (splitCharList (fun c => c = '/') s.data).map String.mk

/-- The components of a path on Windows, where both separators split. -/
def windowsComponents (s : String) : List String :=
  (splitCharList (fun c => c = '/' || c = '\\') s.data).map String.mk

/-! ## Helper lemmas for the execution model -/

theorem runStmts_load_error (e : String) (ex : Except String Unit) :
    runStmts ⟨Except.error e, ex⟩ create_model_script = Except.error e := rfl

theorem runStmts_export_error (e : String) :
    runStmts ⟨Except.ok (), Except.error e⟩ create_model_script =
      Except.error e := rfl

theorem runStmts_all_ok :
    runStmts ⟨Except.ok (), Except.ok ()⟩ create_model_script =
      Except.ok () := rfl

/-! ## The claims -/

/-- Claim C1: the export invocation declares exactly the dynamic axes stated
in the spec: for the tensor `input`, axes 0 (named batch_size), 2 (height)
and 3 (width) are marked dynamic; for the tensor `output`, only axis 0
(batch_size); no other axis of either tensor is marked dynamic, and no other
tensor has an entry. -/
theorem C1_dynamic_axes_exact :
    dynAxesOf "input" = [0, 2, 3] ∧
    dynAxesOf "output" = [0] ∧
    dynAxesTensorNames = ["input", "output"] ∧
    dynAxisName "input" 0 = some "batch_size" ∧
    dynAxisName "input" 2 = some "height" ∧
    dynAxisName "input" 3 = some "width" ∧
    dynAxisName "output" 0 = some "batch_size" := by
  refine ⟨rfl, rfl, rfl, rfl, rfl, rfl, rfl⟩

/-- Claim C2: the script contains a single `torch.onnx.export` invocation,
and it passes `input_names` = [input], `output_names` = [output] and
`opset_version` = 11. -/
theorem C2_export_names_and_opset :
    exportCalls.length = 1 ∧
    exportInputNames = some ["input"] ∧
    exportOutputNames = some ["output"] ∧
    exportOpsetVersion = some 11 := by
  refine ⟨rfl, rfl, rfl, rfl⟩

/-- Claim C3: the dummy input is built by `torch.randn` (randomly
initialized) with shape exactly (1, 3, 224, 224), and the only statement of
the script that uses `dummy_input` is the export call (statement 6). -/
theorem C3_dummy_input_shape_and_use :
    dummyInputShape = some [1, 3, 224, 224] ∧
    dummyInputIsRandn = true ∧
    stmtsMentioning create_model_script "dummy_input" = [6] ∧
    (create_model_script.get? 6).map (Stmt.isCallStmtTo "torch.onnx.export") =
      some true := by
  refine ⟨rfl, rfl, by decide, by decide⟩

/-- Claim C4: the axes of the `input` tensor absent from the dynamic-axis
map are exactly axis 1 (channels); the baked constant for that axis is the
dummy input's dimension 3; and the dummy input's shape covers every axis the
map mentions (consistency). -/
theorem C4_fixed_axes_baked :
    fixedInputAxes = [1] ∧
    bakedInputDims = [(1, 3)] ∧
    (dynAxesOf "input").all (fun i => i < inputRank) = true := by
  refine ⟨by decide, by decide, by decide⟩

/-- Claim C5: if the target output directory does not exist, the export call
fails and the filesystem is unchanged (no partial file); on success exactly
one file is written and no other state is persisted. -/
theorem C5_export_filesystem (fs : FS) (path : List String)
    (content : List Nat) :
    (parentDir path ∉ fs.dirs →
      onnxExportFS fs path content =
        Except.error "output directory does not exist") ∧
    (parentDir path ∈ fs.dirs →
      ∃ fs2, onnxExportFS fs path content = Except.ok fs2 ∧
        fs2.files = (path, content) :: fs.files ∧ fs2.dirs = fs.dirs) := by
  constructor
  · intro h
    simp [onnxExportFS, h]
  · intro h
    exact ⟨{ fs with files := (path, content) :: fs.files },
      by simp [onnxExportFS, h], rfl, rfl⟩

/-- Witness for C5 at a concrete filesystem: export into a missing directory
errors; export into an existing directory adds exactly the one file. -/
theorem C5_export_filesystem_witness :
    (onnxExportFS ⟨[], []⟩ ["Static", "model.onnx"] [3] =
      Except.error "output directory does not exist") ∧
    ∃ fs2, onnxExportFS ⟨[["Static"]], []⟩ ["Static", "model.onnx"] [3] =
        Except.ok fs2 ∧
      fs2.files = [(["Static", "model.onnx"], [3])] ∧
      fs2.dirs = [["Static"]] := by
  constructor
  · exact (C5_export_filesystem ⟨[], []⟩ ["Static", "model.onnx"] [3]).1
      (by decide)
  · obtain ⟨fs2, h1, h2, h3⟩ :=
      (C5_export_filesystem ⟨[["Static"]], []⟩ ["Static", "model.onnx"]
        [3]).2 (by decide)
    exact ⟨fs2, h1, h2, h3⟩

/-- Claim C6: the script has no `try`/`except` handler; the exit code is zero
exactly when model load and export both succeed; a load failure propagates
its exception to the process boundary with a nonzero exit, and so does an
export failure when load succeeded. -/
theorem C6_no_error_handling :
    handlerTotal create_model_script = 0 ∧
    ∀ env : Env,
      (exitCode env = 0 ↔
        env.loadResult.isOk = true ∧ env.exportResult.isOk = true) ∧
      (∀ e, env.loadResult = Except.error e →
        runStmts env create_model_script = Except.error e ∧
          exitCode env ≠ 0) ∧
      (∀ e u, env.loadResult = Except.ok u →
        env.exportResult = Except.error e →
        runStmts env create_model_script = Except.error e ∧
          exitCode env ≠ 0) := by
  refine ⟨rfl, ?_⟩
  intro env
  obtain ⟨l, ex⟩ := env
  cases l with
  | error e0 =>
      have hexit : exitCode ⟨Except.error e0, ex⟩ = 1 := rfl
      refine ⟨?_, ?_, ?_⟩
      · rw [hexit]; simp [Except.isOk, Except.toBool]
      · intro e he
        simp only [Except.error.injEq] at he
        subst he
        exact ⟨runStmts_load_error e0 ex, by rw [hexit]; exact one_ne_zero⟩
      · intro e u h1 h2
        simp at h1
  | ok u0 =>
      cases u0
      cases ex with
      | error e1 =>
          have hexit : exitCode ⟨Except.ok (), Except.error e1⟩ = 1 := rfl
          refine ⟨?_, ?_, ?_⟩
          · rw [hexit]; simp [Except.isOk, Except.toBool]
          · intro e he
            simp at he
          · intro e u h1 h2
            simp only [Except.error.injEq] at h2
            subst h2
            exact ⟨runStmts_export_error e1,
              by rw [hexit]; exact one_ne_zero⟩
      | ok u1 =>
          cases u1
          have hexit : exitCode ⟨Except.ok (), Except.ok ()⟩ = 0 := rfl
          refine ⟨?_, ?_, ?_⟩
          · rw [hexit]; simp [Except.isOk, Except.toBool]
          · intro e he
            simp at he
          · intro e u h1 h2
            simp at h2

/-- Witness for C6 at concrete environments: a failed load exits nonzero with
its error propagated, and an all-ok run exits zero. -/
theorem C6_no_error_handling_witness :
    (runStmts ⟨Except.error "weights unreachable", Except.ok ()⟩
        create_model_script = Except.error "weights unreachable" ∧
      exitCode ⟨Except.error "weights unreachable", Except.ok ()⟩ ≠ 0) ∧
    exitCode ⟨Except.ok (), Except.ok ()⟩ = 0 := by
  constructor
  · exact ((C6_no_error_handling.2
      ⟨Except.error "weights unreachable", Except.ok ()⟩).2.1
      "weights unreachable" rfl)
  · exact ((C6_no_error_handling.2 ⟨Except.ok (), Except.ok ()⟩).1).2
      ⟨rfl, rfl⟩

/-- Claim C7: the exported artifact is a function of the architecture, the
pretrained weights, the dummy input's shape and the export parameters alone:
two exports whose dummy inputs share a shape but hold different random values
produce equal artifacts with byte-identical serializations. -/
theorem C7_export_deterministic (arch : String) (w : List Int)
    (shape : List Nat) (v1 v2 : List Int) (p : ExportParams) :
    exportArtifact arch w ⟨shape, v1⟩ p = exportArtifact arch w ⟨shape, v2⟩ p ∧
    serializeArtifact (exportArtifact arch w ⟨shape, v1⟩ p) =
      serializeArtifact (exportArtifact arch w ⟨shape, v2⟩ p) :=
  ⟨rfl, rfl⟩

/-- Witness for C7 at the script's concrete parameters: two dummy tensors of
shape (1, 3, 224, 224) holding different values yield the same artifact. -/
theorem C7_export_deterministic_witness :
    exportArtifact "mobilenet_v2" [5] ⟨[1, 3, 224, 224], [7]⟩
        ⟨["input"], ["output"], [("input", [(0, "batch_size")])], 11⟩ =
      exportArtifact "mobilenet_v2" [5] ⟨[1, 3, 224, 224], [9]⟩
        ⟨["input"], ["output"], [("input", [(0, "batch_size")])], 11⟩ :=
  (C7_export_deterministic "mobilenet_v2" [5] [1, 3, 224, 224] [7] [9]
    ⟨["input"], ["output"], [("input", [(0, "batch_size")])], 11⟩).1

/-- Claim C8: the model is constructed exactly once (statement 2, with
pretrained weights), mutated exactly once thereafter (statement 3, the
`model.eval` call, before the export at statement 6), and no later statement
mutates, rebinds or deletes it. -/
theorem C8_model_lifecycle :
    stmtIndicesWhere create_model_script Stmt.isModelConstruction = [2] ∧
    stmtIndicesWhere create_model_script Stmt.mutatesModel = [3] ∧
    create_model_script.get? 3 =
      some (Stmt.exprStmt (Expr.call "model.eval" Expr.enil)) ∧
    stmtIndicesWhere create_model_script
      (Stmt.isCallStmtTo "torch.onnx.export") = [6] ∧
    stmtIndicesWhere create_model_script (Stmt.deletesVar "model") = [] ∧
    (create_model_script.drop 4).all
      (fun st => !(st.mutatesModel || st.assignsTo "model" ||
        st.deletesVar "model")) = true := by
  refine ⟨by decide, by decide, by decide, by decide, by decide, by decide⟩

/-- Claim C9: every tensor name keyed in the dynamic-axis configuration
appears among the declared input/output names, and the configuration keys
exactly the names `input` and `output`, no others. -/
theorem C9_axis_keys_declared :
    dynAxesTensorNames = ["input", "output"] ∧
    dynAxesTensorNames.all
      (fun t => (exportInputNames.getD [] ++ exportOutputNames.getD []).contains t) =
      true := by
  refine ⟨rfl, by decide⟩

/-- Claim C10: the target path constant contains a backslash and no forward
slash: on POSIX it is a single path component (one file in the working
directory whose name contains a backslash), while under Windows separators it
splits into the directory `Static` and the file name. -/
theorem C10_path_backslash :
    exportPath = some "Static\\mobilenetv2_dynamic.onnx" ∧
    containsChar (exportPath.getD "") '\\' = true ∧
    containsChar (exportPath.getD "") '/' = false ∧
    posixComponents (exportPath.getD "") =
      ["Static\\mobilenetv2_dynamic.onnx"] ∧
    windowsComponents (exportPath.getD "") =
      ["Static", "mobilenetv2_dynamic.onnx"] := by
  refine ⟨rfl, by decide, by decide, by decide, by decide⟩

end DejaView
